import Mathlib

/-!
# Verification of the subdomain classification engine (`scanners/subdomains.py`)

This file is a shallow embedding of the subdomain classification and
network-probing engine of the domain-scan repository, together with theorems
settling the specification claims about it.

Conventions of the embedding:

* Python dictionaries that the code indexes by string keys are modelled as
  association lists (`List (String × _)`) looked up with `List.lookup`;
  a failed `d[k]` access is a `KeyError`.
* `dict.get(k, default)`-style accesses are modelled with `Option`.
* Fallible Python code is `Except PyErr _`; a generator that yields zero or one
  row is `Except PyErr (Option Row)` (`.ok none` = skip, `.ok (some r)` = one
  output row, `.error _` = an uncaught exception).
* External collaborators declared at the interface boundary of the spec
  (inspection store, DNS resolver `dig`, HTTP fetcher `curl`, `urlparse`
  hostname extraction, the SHA-256 digest and the durable probe cache) are
  fields of a `ScanEnv` environment record, so theorems quantify over them.
* Machine integers do not occur; HTTP status codes are `Int` as in the JSON
  the code consumes.
-/

/-- Python exceptions that the embedded code can raise. -/
inductive PyErr where
  | keyError : PyErr
  | typeError : PyErr
deriving DecidableEq, Repr

deriving instance DecidableEq for Except

/-- Split a character list at every occurrence of the character c
(Python's single-separator str.split). -/
def splitChars (c : Char) : List Char → List (List Char)
  | [] => [[]]
  | x :: xs =>
    if x = c then [] :: splitChars c xs
    else
      match splitChars c xs with
      | [] => [[x]]
      | y :: ys => (x :: y) :: ys

/-- Python s.split(sep) for a one-character separator, e.g. s.split(".")
and s.split("\n") as used by the source. -/
def pySplit (c : Char) (s : String) : List String :=
  (splitChars c s.toList).map String.mk

/-- Python sep.join(parts) for a one-character separator. -/
def pyJoin (sep : Char) : List String → String
  | [] => ""
  | [x] => x
  | x :: xs => x ++ String.mk [sep] ++ pyJoin sep xs

/-- One endpoint's inspection result: `{"status": ..., "redirect_to": ...}`.
`status` is read with `endpoint.get("status", None)` in the source, hence
`Option Int`; `redirect_to` with `endpoint.get("redirect_to")`. -/
structure Endpoint where
  status : Option Int
  redirect_to : Option String
deriving DecidableEq, Repr

/-- An inspection record, as read by `scan`: the four fields the code
accesses.  `up`, `canonical_protocol` and `canonical_endpoint` are read with
`.get` (absent key = `none`); `endpoints` is indexed directly (absent key =
`KeyError`), and is a nested string-keyed dictionary
`protocol -> host-prefix -> Endpoint`. -/
structure Inspection where
  up : Option Bool
  canonical_protocol : Option String
  canonical_endpoint : Option String
  endpoints : Option (List (String × List (String × Endpoint)))
deriving DecidableEq, Repr

/-- Python truthiness of the inspection dictionary (`if not inspection:`):
our model of the record is falsy exactly when none of its fields is present. -/
def Inspection.isEmpty (i : Inspection) : Bool :=
  i.up.isNone && i.canonical_protocol.isNone &&
    i.canonical_endpoint.isNone && i.endpoints.isNone

/-- `d[k]` on a string-keyed Python dictionary, where the index expression may
itself be `None` (as in `inspection["endpoints"][inspection.get(...)]`):
a missing key, or indexing by `None`, raises `KeyError`. -/
def dictGet {α : Type} (d : List (String × α)) (k : Option String) : Except PyErr α :=
  match k with
  | none => .error .keyError
  | some s =>
    match d.lookup s with
    | some v => .ok v
    | none => .error .keyError

/-- The initial endpoint selection of `scan` (line 100 of the source):
`inspection["endpoints"][inspection.get("canonical_protocol")]["root"]`.
Note the hard-coded `"root"` prefix. -/
def getEp0 (insp : Inspection) : Except PyErr Endpoint :=
  match insp.endpoints with
  | none => .error .keyError
  | some eps =>
    match dictGet eps insp.canonical_protocol with
    | .error e => .error e
    | .ok sub => dictGet sub (some "root")

/-- A fallback endpoint lookup `inspection["endpoints"][proto][pre]`. -/
def getEp (insp : Inspection) (proto pre : String) : Except PyErr Endpoint :=
  match insp.endpoints with
  | none => .error .keyError
  | some eps =>
    match dictGet eps (some proto) with
    | .error e => .error e
    | .ok sub => dictGet sub (some pre)

/-- One `if endpoint.get("status", None) == 0:` fallback step of `scan`
(lines 104-123): when the currently held endpoint has status `0`, re-index the
endpoints dictionary at `(proto, pre)` and replace endpoint, protocol and
prefix; otherwise keep the current triple. -/
def resolveStep (insp : Inspection) (proto pre : String)
    (cur : Endpoint × Option String × Option String) :
    Except PyErr (Endpoint × Option String × Option String) :=
  if cur.1.status = some 0 then
    match getEp insp proto pre with
    | .error e => .error e
    | .ok ep => .ok (ep, some proto, some pre)
  else .ok cur

/-- The endpoint resolver of `scan` (lines 99-123): start from
`endpoints[canonical_protocol]["root"]` with
`protocol = canonical_protocol` and `prefix = canonical_endpoint`, then fall
through `http/www`, `https/root`, `https/www`, `http/root`, each step taken
only while the current status is `0`. -/
def resolveEndpoint (insp : Inspection) :
    Except PyErr (Endpoint × Option String × Option String) :=
  match getEp0 insp with
  | .error e => .error e
  | .ok e0 =>
    match resolveStep insp "http" "www"
        (e0, insp.canonical_protocol, insp.canonical_endpoint) with
    | .error e => .error e
    | .ok s1 =>
      match resolveStep insp "https" "root" s1 with
      | .error e => .error e
      | .ok s2 =>
        match resolveStep insp "https" "www" s2 with
        | .error e => .error e
        | .ok s3 => resolveStep insp "http" "root" s3

/-- The Python expression `re.sub("^www.", "", s)` as written in the source
(lines 85 and 148).  The regex dot is unescaped, so the pattern matches `www`
followed by ANY character other than a newline; only an anchored first match
is removed. -/
def reSubWww (s : String) : String :=
  match s.toList with
  | 'w' :: 'w' :: 'w' :: c :: rest => if c = '\n' then s else String.mk rest
  | _ => s

/-- Modelled from the spec: `utils.base_domain_for`, whose source is not part
of the analysed tree.  Per the spec's data model, the base domain is the
second-level-plus-suffix portion of a hostname, e.g. `agency.gov` from
`apps.agency.gov`: the last two dot-separated labels. -/
def base_domain_for (domain : String) : String :=
  let parts := pySplit '.' domain
  pyJoin '.' (parts.drop (parts.length - 2))

/-- The spec's own notion of stripping a leading `www.` label: remove the
literal four-character prefix `www.` when present.  This is the spec-side
counterpart of `reSubWww`, used to compare the claimed skip condition with the
implemented one. -/
def specStripWww (s : String) : String :=
  match s.toList with
  | 'w' :: 'w' :: 'w' :: '.' :: rest => String.mk rest
  | _ => s

/-- Return everything to the left of the base domain (source lines 204-205). -/
def subdomains_for (subdomain : String) : String :=
  pyJoin '.' ((pySplit '.' subdomain).dropLast.dropLast)

/-- The wildcard form of a subdomain (source lines 277-278):
`"*." + ".".join(subdomain.split(".")[1:])`. -/
def wildcard_for (subdomain : String) : String :=
  "*." ++ pyJoin '.' ((pySplit '.' subdomain).drop 1)

/-- The redirect classification of `scan` (lines 147-155), given the hostname
extracted from the redirect URL: strip a leading `www.` (via the source's
regex), take its base domain, and compute the two booleans
`redirected_external` and `redirected_subdomain`. -/
def classifyRedirect (sub_original base_original : String) (hostname : String) :
    Bool × Bool :=
  let sub_redirect := reSubWww hostname
  let base_redirect := base_domain_for sub_redirect
  (decide (base_original ≠ base_redirect),
   decide (base_original = base_redirect) && decide (sub_original ≠ sub_redirect))

/-- Python's `sorted`/`list.sort()` on a list of strings. -/
def sortStrings (l : List String) : List String :=
  List.insertionSort (fun a b => a ≤ b) l

/-- Lines 243-253 of the source: `if raw: parsed = raw.split("\n"); parsed.sort()
else: parsed = None`, where `raw` may already be `None`. -/
def parseSort : Option String → Option (List String)
  | some s => if s = "" then none else some (sortStrings (pySplit '\n' s))
  | none => none

/-- Python truthiness of an optional list (`None` and `[]` are falsy). -/
def truthyList : Option (List String) → Bool
  | none => false
  | some [] => false
  | some (_ :: _) => true

/-- Line 262 of the source: `(parsed_wild) and (parsed_wild == parsed_self)`,
used as the condition that sets `matched_wild`. -/
def matchedOf (parsed_wild parsed_self : Option (List String)) : Bool :=
  truthyList parsed_wild && decide (parsed_wild = parsed_self)

/-- A probe cache entry: the `response` object persisted by `network_check`
(source lines 256-265). -/
structure CacheData where
  content : Option String
  wildcard_dns : Option (List String)
  self_dns : Option (List String)
  matched_wild : Bool
deriving DecidableEq, Repr

/-- The cache-miss fetch cycle of `network_check` (source lines 219-265):
one `curl` of the endpoint URL, a `dig` of the wildcard form, a `dig` of the
subdomain itself only when the wildcard answer is non-empty, sorted-list
parsing of both answers, and the wildcard-match bit.  Besides the response it
returns the DNS names queried (in order) and the URLs fetched, so that
network activity can be counted. -/
def fetchCycle (dig : String → String) (curl : String → Option String)
    (subdomain endpoint : String) : CacheData × List String × List String :=
  let content := curl endpoint
  let w := dig (wildcard_for subdomain)
  let (raw_wild, raw_self, digs) :=
    if w = "" then ((none : Option String), (none : Option String),
                    [wildcard_for subdomain])
    else (some w, some (dig subdomain), [wildcard_for subdomain, subdomain])
  let parsed_wild := parseSort raw_wild
  let parsed_self := parseSort raw_self
  ({ content := content, wildcard_dns := parsed_wild, self_dns := parsed_self,
     matched_wild := matchedOf parsed_wild parsed_self }, digs, [endpoint])

/-- The environment of external collaborators and configuration consumed by
`scan`, per the spec's interface boundary: the exclusion list and parent map
(reference tables), the inspection store (`utils.data_for`), `urlparse(...)
.hostname`, the durable probe cache (`utils.cache_path`/`os.path.exists`/
`utils.write`, keyed by subdomain under the fixed `"subdomains"` scan type),
the `force` option, the DNS resolver (`dig +short`, raw newline-separated
output), the HTTP fetcher (`curl`, `none` on failure), and the SHA-256 hex
digest (`none` when the content fails to encode). -/
structure ScanEnv where
  exclude : List String
  domain_map : List (String × String)
  inspections : String → Option Inspection
  hostnameOf : String → Option String
  cache : String → Option CacheData
  force : Bool
  dig : String → String
  curl : String → Option String
  sha256 : String → Option String

/-- The outcome of one `network_check` call: the response handed back to
`scan`, the cache after the call, and the observable network/persistence
activity (DNS names queried, URLs fetched, cache entries written, number of
fetch cycles executed). -/
structure NetResult where
  response : CacheData
  cache' : String → Option CacheData
  digQueries : List String
  curlCalls : List String
  writes : List (String × CacheData)
  cycles : Nat

/-- `network_check` (source lines 208-269): if `force` is off and a cache
entry exists for the subdomain, return it with no network activity; otherwise
run one fetch cycle and persist the complete response, overwriting any stale
entry. -/
def networkCheck (env : ScanEnv) (subdomain endpoint : String) : NetResult :=
  match env.force, env.cache subdomain with
  | false, some data =>
    { response := data, cache' := env.cache, digQueries := [], curlCalls := [],
      writes := [], cycles := 0 }
  | _, _ =>
    let r := fetchCycle env.dig env.curl subdomain endpoint
    { response := r.1,
      cache' := fun k => if k = subdomain then some r.1 else env.cache k,
      digQueries := r.2.1, curlCalls := r.2.2,
      writes := [(subdomain, r.1)], cycles := 1 }

/-- One output row of the scanner (source lines 183-190). -/
structure Row where
  base_metadata : Option String
  redirected_external : Bool
  redirected_subdomain : Bool
  status_code : Option Int
  matched_wild : Bool
  hashed : Option String
deriving DecidableEq, Repr

/-- Python `"%s" % v` for an optional string: `None` prints as `"None"`. -/
def optStr : Option String → String
  | none => "None"
  | some s => s

/-- Python `str(status)` for the optional status code. -/
def statusRepr : Option Int → String
  | none => "None"
  | some n => toString n

/-- Python `str(status).startswith('2')` (source line 179). -/
def statusStartsWith2 (status : Option Int) : Bool :=
  match (statusRepr status).toList with
  | c :: _ => c = '2'
  | [] => false

/-- Python truthiness of an optional string (`None` and `""` are falsy). -/
def truthyStr : Option String → Bool
  | none => false
  | some s => s ≠ ""

/-- Content hashing in `scan` (lines 168-175): `if content:` hash it, with the
`try/except` around encoding absorbed into the environment's digest function;
otherwise `None`. -/
def hashOf (env : ScanEnv) (content : Option String) : Option String :=
  match content with
  | some c => if c = "" then none else env.sha256 c
  | none => none

/-- Lines 144-158 of `scan`: if the resolved endpoint has a truthy
`redirect_to`, extract the hostname of the redirect URL (a `TypeError` is
raised when `urlparse(...).hostname` is `None`, since `re.sub` is then applied
to `None`) and classify it; otherwise both booleans are false. -/
def redirectFlags (env : ScanEnv) (sub_original base_original : String)
    (endpoint : Endpoint) : Except PyErr (Bool × Bool) :=
  if truthyStr endpoint.redirect_to then
    match env.hostnameOf (endpoint.redirect_to.getD "") with
    | none => .error .typeError
    | some h => .ok (classifyRedirect sub_original base_original h)
  else .ok (false, false)

/-- The tail of `scan` after endpoint resolution (source lines 127-190):
the status-0 skip, redirect classification, the network probe at the
reconstructed endpoint URL, content hashing, the wildcard-noise skip
(which formats `status` with `%i` first, a `TypeError` when `status` is
`None`), and the final yielded row. -/
def scanAfterResolve (env : ScanEnv) (domain base_original : String)
    (endpoint : Endpoint) (protocol pfx : Option String) :
    Except PyErr (Option Row) :=
  let status := endpoint.status
  let real_prefix := if pfx = some "root" then "" else "www."
  if status = some 0 then .ok none
  else
    match redirectFlags env domain base_original endpoint with
    | .error e => .error e
    | .ok flags =>
      let endpoint_url := optStr protocol ++ "://" ++ real_prefix ++ domain
      let network := (networkCheck env domain endpoint_url).response
      let matched_wild := network.matched_wild
      let hashed := hashOf env network.content
      if matched_wild = true ∧ statusStartsWith2 status = false then
        match status with
        | none => .error .typeError
        | some _ => .ok none
      else
        .ok (some { base_metadata := env.domain_map.lookup base_original,
                    redirected_external := flags.1,
                    redirected_subdomain := flags.2,
                    status_code := endpoint.status,
                    matched_wild := matched_wild,
                    hashed := hashed })

/-- The `scan` generator (source lines 72-190), as a function from the
environment and the candidate subdomain to its outcome: the manual-exclusion
skip, the second-level/www skip, the not-inspected and not-up skips, endpoint
resolution, and the classification tail. -/
def scan (env : ScanEnv) (domain : String) : Except PyErr (Option Row) :=
  let base_original := base_domain_for domain
  if domain ∈ env.exclude then .ok none
  else if reSubWww domain = base_original then .ok none
  else
    match env.inspections domain with
    | none => .ok none
    | some inspection =>
      if inspection.isEmpty then .ok none
      else if ¬ (inspection.up = some true) then .ok none
      else
        match resolveEndpoint inspection with
        | .error e => .error e
        | .ok (endpoint, protocol, pfx) =>
          scanAfterResolve env domain base_original endpoint protocol pfx

/-! ## Concrete fixtures used by counterexamples, evaluations and witnesses -/

/-- An inspection record whose declared canonical endpoint is `https`/`www`
with status 200, while `https`/`root` has status 0 and `http`/`www` has
status 404. -/
def inspCanonWww : Inspection :=
  { up := some true, canonical_protocol := some "https",
    canonical_endpoint := some "www",
    endpoints := some
      [("http", [("root", ⟨some 0, none⟩), ("www", ⟨some 404, none⟩)]),
       ("https", [("root", ⟨some 0, none⟩), ("www", ⟨some 200, none⟩)])] }

/-- A well-formed inspection record in which only `https`/`www` has a non-zero
status code. -/
def inspOnlyHttpsWww : Inspection :=
  { up := some true, canonical_protocol := some "http",
    canonical_endpoint := some "root",
    endpoints := some
      [("http", [("root", ⟨some 0, none⟩), ("www", ⟨some 0, none⟩)]),
       ("https", [("root", ⟨some 0, none⟩), ("www", ⟨some 404, none⟩)])] }

/-- An inspection record that is up, has all four endpoint entries and a
present `canonical_protocol` key, whose value is however `"ftp"`. -/
def inspFtp : Inspection :=
  { up := some true, canonical_protocol := some "ftp",
    canonical_endpoint := some "root",
    endpoints := some
      [("http", [("root", ⟨some 200, none⟩), ("www", ⟨some 200, none⟩)]),
       ("https", [("root", ⟨some 200, none⟩), ("www", ⟨some 200, none⟩)])] }

/-- An inspection record that is up but has no `endpoints` mapping at all. -/
def inspNoEndpoints : Inspection :=
  { up := some true, canonical_protocol := some "http",
    canonical_endpoint := some "root", endpoints := none }

/-- An inspection record in which the canonical endpoint and every fallback
combination have status code 0. -/
def inspAllZero : Inspection :=
  { up := some true, canonical_protocol := some "http",
    canonical_endpoint := some "root",
    endpoints := some
      [("http", [("root", ⟨some 0, none⟩), ("www", ⟨some 0, none⟩)]),
       ("https", [("root", ⟨some 0, none⟩), ("www", ⟨some 0, none⟩)])] }

/-- An environment with a single inspected subdomain `a.agency.gov` whose
resolved status code is 20 and whose cached probe entry records a wildcard
match: status 20 is not in the 2xx range, yet its decimal representation
starts with the digit 2. -/
def envStatus20 : ScanEnv :=
  { exclude := [], domain_map := [],
    inspections := fun d => if d = "a.agency.gov" then some
      { up := some true, canonical_protocol := some "http",
        canonical_endpoint := some "root",
        endpoints := some
          [("http", [("root", ⟨some 20, none⟩), ("www", ⟨some 0, none⟩)]),
           ("https", [("root", ⟨some 0, none⟩), ("www", ⟨some 0, none⟩)])] }
      else none,
    hostnameOf := fun _ => none,
    cache := fun d => if d = "a.agency.gov" then
        some ⟨none, some ["1.1.1.1"], some ["1.1.1.1"], true⟩ else none,
    force := false, dig := fun _ => "", curl := fun _ => none,
    sha256 := fun _ => none }

/-- An environment with a single inspected candidate `wwwfoo.gov`: a
second-level domain whose name starts with `www` but not with `www.`,
reachable with status 200, no redirect, and a cached probe entry with no
wildcard match. -/
def envWwwfoo : ScanEnv :=
  { exclude := [], domain_map := [],
    inspections := fun d => if d = "wwwfoo.gov" then some
      { up := some true, canonical_protocol := some "http",
        canonical_endpoint := some "root",
        endpoints := some
          [("http", [("root", ⟨some 200, none⟩), ("www", ⟨some 200, none⟩)]),
           ("https", [("root", ⟨some 200, none⟩), ("www", ⟨some 200, none⟩)])] }
      else none,
    hostnameOf := fun _ => none,
    cache := fun d => if d = "wwwfoo.gov" then
        some ⟨none, none, none, false⟩ else none,
    force := false, dig := fun _ => "", curl := fun _ => none,
    sha256 := fun _ => none }

/-- An environment mapping `x.agency.gov` to `inspFtp`. -/
def envFtp : ScanEnv :=
  { exclude := [], domain_map := [],
    inspections := fun d => if d = "x.agency.gov" then some inspFtp else none,
    hostnameOf := fun _ => none, cache := fun _ => none,
    force := false, dig := fun _ => "", curl := fun _ => none,
    sha256 := fun _ => none }

/-- An environment mapping `x.agency.gov` to `inspNoEndpoints`. -/
def envNoEndpoints : ScanEnv :=
  { exclude := [], domain_map := [],
    inspections := fun d => if d = "x.agency.gov" then some inspNoEndpoints else none,
    hostnameOf := fun _ => none, cache := fun _ => none,
    force := false, dig := fun _ => "", curl := fun _ => none,
    sha256 := fun _ => none }

/-- An environment mapping `x.agency.gov` to `inspAllZero`. -/
def envAllZero : ScanEnv :=
  { exclude := [], domain_map := [],
    inspections := fun d => if d = "x.agency.gov" then some inspAllZero else none,
    hostnameOf := fun _ => none, cache := fun _ => none,
    force := false, dig := fun _ => "", curl := fun _ => none,
    sha256 := fun _ => none }

/-- An environment with a single inspected subdomain `a.agency.gov` resolved
with status 404 and a cached probe entry recording a wildcard match. -/
def envWild404 : ScanEnv :=
  { exclude := [], domain_map := [],
    inspections := fun d => if d = "a.agency.gov" then some
      { up := some true, canonical_protocol := some "http",
        canonical_endpoint := some "root",
        endpoints := some
          [("http", [("root", ⟨some 404, none⟩), ("www", ⟨some 0, none⟩)]),
           ("https", [("root", ⟨some 0, none⟩), ("www", ⟨some 0, none⟩)])] }
      else none,
    hostnameOf := fun _ => none,
    cache := fun d => if d = "a.agency.gov" then
        some ⟨none, some ["1.1.1.1"], some ["1.1.1.1"], true⟩ else none,
    force := false, dig := fun _ => "", curl := fun _ => none,
    sha256 := fun _ => none }

/-- An empty-cache environment used for the probe-cache witness. -/
def envFreshCache : ScanEnv :=
  { exclude := [], domain_map := [], inspections := fun _ => none,
    hostnameOf := fun _ => none, cache := fun _ => none,
    force := false, dig := fun _ => "1.1.1.1\n2.2.2.2", curl := fun _ => some "hello",
    sha256 := fun _ => none }

/-- The wildcard-match bit as computed by the fetch cycle from the two parsed
(unsorted) DNS answer lists, once both queries returned at least one answer:
both lists are sorted and compared (source lines 243-265). -/
def matchedFromAnswers (w s : List String) : Bool :=
  matchedOf (some (sortStrings w)) (some (sortStrings s))

/-! ## Helper lemmas -/

theorem getEp_eq {insp : Inspection} {eps : List (String × List (String × Endpoint))}
    {d : List (String × Endpoint)} {e : Endpoint} {p x : String}
    (h1 : insp.endpoints = some eps) (h2 : eps.lookup p = some d)
    (h3 : d.lookup x = some e) : getEp insp p x = .ok e := by
  simp [getEp, dictGet, h1, h2, h3]

theorem getEp0_eq {insp : Inspection} {eps : List (String × List (String × Endpoint))}
    {d : List (String × Endpoint)} {e : Endpoint} {p : String}
    (h0 : insp.canonical_protocol = some p) (h1 : insp.endpoints = some eps)
    (h2 : eps.lookup p = some d) (h3 : d.lookup "root" = some e) :
    getEp0 insp = .ok e := by
  simp [getEp0, dictGet, h0, h1, h2, h3]

theorem resolveStep_stay {insp : Inspection} {proto pre : String}
    {cur : Endpoint × Option String × Option String}
    (h : ¬ cur.1.status = some 0) : resolveStep insp proto pre cur = .ok cur := by
  simp [resolveStep, h]

theorem resolveStep_move {insp : Inspection} {proto pre : String}
    {cur : Endpoint × Option String × Option String} {e : Endpoint}
    (h : cur.1.status = some 0) (hg : getEp insp proto pre = .ok e) :
    resolveStep insp proto pre cur = .ok (e, some proto, some pre) := by
  simp [resolveStep, h, hg]

theorem resolveStep_isOk {insp : Inspection} {proto pre : String} {e : Endpoint}
    (hg : getEp insp proto pre = .ok e)
    (cur : Endpoint × Option String × Option String) :
    ∃ r, resolveStep insp proto pre cur = .ok r := by
  by_cases h : cur.1.status = some 0
  · exact ⟨(e, some proto, some pre), resolveStep_move h hg⟩
  · exact ⟨cur, resolveStep_stay h⟩

theorem isEmpty_false_of_up {insp : Inspection} (h : insp.up = some true) :
    insp.isEmpty = false := by
  simp [Inspection.isEmpty, h]

theorem scan_eq_after {env : ScanEnv} {domain : String} {insp : Inspection}
    {ep : Endpoint} {proto pfx : Option String}
    (hex : domain ∉ env.exclude)
    (hsub : ¬ reSubWww domain = base_domain_for domain)
    (hlook : env.inspections domain = some insp)
    (hup : insp.up = some true)
    (hres : resolveEndpoint insp = .ok (ep, proto, pfx)) :
    scan env domain
      = scanAfterResolve env domain (base_domain_for domain) ep proto pfx := by
  simp [scan, hex, hsub, hlook, isEmpty_false_of_up hup, hup, hres]

theorem scan_eq_error {env : ScanEnv} {domain : String} {insp : Inspection}
    {e : PyErr}
    (hex : domain ∉ env.exclude)
    (hsub : ¬ reSubWww domain = base_domain_for domain)
    (hlook : env.inspections domain = some insp)
    (hup : insp.up = some true)
    (hres : resolveEndpoint insp = .error e) :
    scan env domain = .error e := by
  simp [scan, hex, hsub, hlook, isEmpty_false_of_up hup, hup, hres]

/-! ## Claims -/

/-- C1: the claim says resolution begins at the inspector's declared canonical
endpoint `(canonical_protocol, canonical_endpoint)`, so a non-zero canonical
status is returned unchanged.  The code instead begins at
`endpoints[canonical_protocol]["root"]` (hard-coded `"root"`), contradicting
its own comment.  Evaluation at the failing record `inspCanonWww`: the
declared canonical endpoint `https`/`www` has non-zero status 200, yet the
resolver falls back and returns status 404, protocol `http`, prefix `www`. -/
theorem C1_canonical_start_eval :
    getEp inspCanonWww "https" "www" = .ok ⟨some 200, none⟩ ∧
    inspCanonWww.canonical_protocol = some "https" ∧
    inspCanonWww.canonical_endpoint = some "www" ∧
    ¬ (⟨some 200, none⟩ : Endpoint).status = some 0 ∧
    resolveEndpoint inspCanonWww
      = .ok (⟨some 404, none⟩, some "http", some "www") := by
  refine ⟨by decide, by decide, by decide, by decide, by decide⟩

/-- C2: when the endpoint the code initially picks has status 0, the resolver
falls through the fixed priority order `http/www`, `https/root`, `https/www`,
`http/root`, selecting the first entry whose status code is non-zero (and
`http/root` as a last resort); in particular, when only `https/www` is
non-zero, it selects protocol `https` and prefix `www`. -/
theorem C2_fallback_priority (insp : Inspection)
    (eps : List (String × List (String × Endpoint)))
    (dH dS : List (String × Endpoint)) (e_hr e_hw e_sr e_sw e0 : Endpoint)
    (heps : insp.endpoints = some eps)
    (hH : eps.lookup "http" = some dH) (hS : eps.lookup "https" = some dS)
    (hhr : dH.lookup "root" = some e_hr) (hhw : dH.lookup "www" = some e_hw)
    (hsr : dS.lookup "root" = some e_sr) (hsw : dS.lookup "www" = some e_sw)
    (h0 : getEp0 insp = .ok e0) (hs0 : e0.status = some 0) :
    (¬ e_hw.status = some 0 →
        resolveEndpoint insp = .ok (e_hw, some "http", some "www")) ∧
    (e_hw.status = some 0 → ¬ e_sr.status = some 0 →
        resolveEndpoint insp = .ok (e_sr, some "https", some "root")) ∧
    (e_hw.status = some 0 → e_sr.status = some 0 → ¬ e_sw.status = some 0 →
        resolveEndpoint insp = .ok (e_sw, some "https", some "www")) ∧
    (e_hw.status = some 0 → e_sr.status = some 0 → e_sw.status = some 0 →
        resolveEndpoint insp = .ok (e_hr, some "http", some "root")) := by
  have ghw := getEp_eq heps hH hhw
  have gsr := getEp_eq heps hS hsr
  have gsw := getEp_eq heps hS hsw
  have ghr := getEp_eq heps hH hhr
  have s1 : resolveStep insp "http" "www"
      (e0, insp.canonical_protocol, insp.canonical_endpoint)
      = .ok (e_hw, some "http", some "www") := resolveStep_move hs0 ghw
  refine ⟨?_, ?_, ?_, ?_⟩
  · intro n1
    have t2 : resolveStep insp "https" "root" (e_hw, some "http", some "www")
        = .ok (e_hw, some "http", some "www") := resolveStep_stay n1
    have t3 : resolveStep insp "https" "www" (e_hw, some "http", some "www")
        = .ok (e_hw, some "http", some "www") := resolveStep_stay n1
    have t4 : resolveStep insp "http" "root" (e_hw, some "http", some "www")
        = .ok (e_hw, some "http", some "www") := resolveStep_stay n1
    simp only [resolveEndpoint, h0, s1, t2, t3, t4]
  · intro y1 n2
    have t2 : resolveStep insp "https" "root" (e_hw, some "http", some "www")
        = .ok (e_sr, some "https", some "root") := resolveStep_move y1 gsr
    have t3 : resolveStep insp "https" "www" (e_sr, some "https", some "root")
        = .ok (e_sr, some "https", some "root") := resolveStep_stay n2
    have t4 : resolveStep insp "http" "root" (e_sr, some "https", some "root")
        = .ok (e_sr, some "https", some "root") := resolveStep_stay n2
    simp only [resolveEndpoint, h0, s1, t2, t3, t4]
  · intro y1 y2 n3
    have t2 : resolveStep insp "https" "root" (e_hw, some "http", some "www")
        = .ok (e_sr, some "https", some "root") := resolveStep_move y1 gsr
    have t3 : resolveStep insp "https" "www" (e_sr, some "https", some "root")
        = .ok (e_sw, some "https", some "www") := resolveStep_move y2 gsw
    have t4 : resolveStep insp "http" "root" (e_sw, some "https", some "www")
        = .ok (e_sw, some "https", some "www") := resolveStep_stay n3
    simp only [resolveEndpoint, h0, s1, t2, t3, t4]
  · intro y1 y2 y3
    have t2 : resolveStep insp "https" "root" (e_hw, some "http", some "www")
        = .ok (e_sr, some "https", some "root") := resolveStep_move y1 gsr
    have t3 : resolveStep insp "https" "www" (e_sr, some "https", some "root")
        = .ok (e_sw, some "https", some "www") := resolveStep_move y2 gsw
    have t4 : resolveStep insp "http" "root" (e_sw, some "https", some "www")
        = .ok (e_hr, some "http", some "root") := resolveStep_move y3 ghr
    simp only [resolveEndpoint, h0, s1, t2, t3, t4]

/-- C2 witness: a concrete record in which only `https`/`www` has a non-zero
status code resolves to status 404, protocol `https`, prefix `www`. -/
theorem C2_fallback_priority_witness :
    resolveEndpoint inspOnlyHttpsWww
      = .ok (⟨some 404, none⟩, some "https", some "www") :=
  (C2_fallback_priority inspOnlyHttpsWww _ _ _ _ ⟨some 0, none⟩ _
      ⟨some 404, none⟩ ⟨some 0, none⟩ rfl rfl rfl rfl rfl rfl rfl
      (by decide) rfl).2.2.1 rfl rfl (by decide)

/-- C3 counterexample: the claim says the candidate `a.agency.gov` redirecting
to `www.agency.gov` is classified with both booleans false; the code returns
`redirects_to_sibling_subdomain = true`, because the `www.`-stripped redirect
hostname `agency.gov` differs from the original subdomain `a.agency.gov`. -/
theorem C3_redirect_example_counterexample :
    ¬ classifyRedirect "a.agency.gov" (base_domain_for "a.agency.gov")
        "www.agency.gov" = (false, false) := by decide

/-- C3 (amended): the classifier strips a leading `www.` from the redirect
hostname, so a redirect to the `www` form of the candidate itself
(`www.a.agency.gov`) yields `(false, false)`; redirecting to `www.agency.gov`
yields `(false, true)` (same base domain, different subdomain after
normalization); `b.agency.gov` yields `(false, true)`; `other.com` yields
`(true, false)`. -/
theorem C3_redirect_classification :
    base_domain_for "a.agency.gov" = "agency.gov" ∧
    classifyRedirect "a.agency.gov" "agency.gov" "www.a.agency.gov"
      = (false, false) ∧
    classifyRedirect "a.agency.gov" "agency.gov" "www.agency.gov"
      = (false, true) ∧
    classifyRedirect "a.agency.gov" "agency.gov" "b.agency.gov"
      = (false, true) ∧
    classifyRedirect "a.agency.gov" "agency.gov" "other.com"
      = (true, false) := by
  refine ⟨by decide, by decide, by decide, by decide, by decide⟩

/-- C4: the probe cache is read-through and idempotent.  On a hit (entry
present, force off) `network_check` returns the cached data with no DNS query,
no HTTP fetch, no write and no fetch cycle, leaving the cache unchanged; on a
miss (force on, or no entry) it runs exactly one fetch cycle and persists
exactly one complete entry under the subdomain's key; and starting from no
cached entry without force, two consecutive calls for the same subdomain
perform exactly one fetch cycle in total, the second call touching the
network not at all and returning the same data. -/
theorem C4_cache_read_through (env : ScanEnv) (sub url : String) :
    (∀ d, env.force = false → env.cache sub = some d →
        networkCheck env sub url =
          { response := d, cache' := env.cache, digQueries := [],
            curlCalls := [], writes := [], cycles := 0 }) ∧
    (env.force = true ∨ env.cache sub = none →
        (networkCheck env sub url).cycles = 1 ∧
        (networkCheck env sub url).writes
          = [(sub, (networkCheck env sub url).response)]) ∧
    (env.force = false → env.cache sub = none →
        (networkCheck env sub url).cycles
            + (networkCheck { env with
                cache := (networkCheck env sub url).cache' } sub url).cycles
          = 1 ∧
        (networkCheck { env with
            cache := (networkCheck env sub url).cache' } sub url).digQueries
          = [] ∧
        (networkCheck { env with
            cache := (networkCheck env sub url).cache' } sub url).curlCalls
          = [] ∧
        (networkCheck { env with
            cache := (networkCheck env sub url).cache' } sub url).response
          = (networkCheck env sub url).response) := by
  refine ⟨?_, ?_, ?_⟩
  · intro d hf hc
    simp [networkCheck, hf, hc]
  · intro h
    rcases h with hf | hc
    · simp [networkCheck, hf]
    · cases hb : env.force <;> simp [networkCheck, hb, hc]
  · intro hf hc
    have h1 : networkCheck env sub url =
        { response := (fetchCycle env.dig env.curl sub url).1,
          cache' := fun k => if k = sub then
              some (fetchCycle env.dig env.curl sub url).1 else env.cache k,
          digQueries := (fetchCycle env.dig env.curl sub url).2.1,
          curlCalls := (fetchCycle env.dig env.curl sub url).2.2,
          writes := [(sub, (fetchCycle env.dig env.curl sub url).1)],
          cycles := 1 } := by
      simp [networkCheck, hf, hc]
    rw [h1]
    simp [networkCheck, hf]

/-- C4 witness: in the concrete empty-cache environment, the first probe of
`a.b.gov` runs one fetch cycle and the second runs none. -/
theorem C4_cache_read_through_witness :
    (networkCheck envFreshCache "a.b.gov" "http://a.b.gov").cycles
        + (networkCheck { envFreshCache with
            cache := (networkCheck envFreshCache "a.b.gov"
              "http://a.b.gov").cache' } "a.b.gov" "http://a.b.gov").cycles
      = 1 :=
  ((C4_cache_read_through envFreshCache "a.b.gov" "http://a.b.gov").2.2
    rfl rfl).1

/-- C5: when the DNS query for the wildcard form of the subdomain (leftmost
label replaced by `*`) returns an empty answer, `matched_wild` is false and
the only DNS name queried during the fetch cycle is the wildcard form — in
particular the subdomain itself (whose name does not begin with `*`) is never
queried. -/
theorem C5_empty_wildcard_no_self_query (dig : String → String)
    (curl : String → Option String) (sub ep : String)
    (hw : dig (wildcard_for sub) = "") :
    (fetchCycle dig curl sub ep).1.matched_wild = false ∧
    (fetchCycle dig curl sub ep).2.1 = [wildcard_for sub] ∧
    (¬ sub.toList.head? = some '*' →
        sub ∉ (fetchCycle dig curl sub ep).2.1) := by
  have h1 : fetchCycle dig curl sub ep
      = (⟨curl ep, none, none, false⟩, [wildcard_for sub], [ep]) := by
    simp [fetchCycle, hw, parseSort, matchedOf, truthyList]
  refine ⟨by rw [h1], by rw [h1], ?_⟩
  intro hstar hmem
  rw [h1] at hmem
  have heq : sub = wildcard_for sub := List.mem_singleton.mp hmem
  apply hstar
  rw [heq]
  show ('*' :: '.' :: (pyJoin '.' ((pySplit '.' sub).drop 1)).toList).head?
    = some '*'
  rfl

/-- C5 witness: with a DNS double answering nothing, probing
`abc.mountains.gov` queries only `*.mountains.gov`, reports no wildcard match
and never queries `abc.mountains.gov` itself. -/
theorem C5_empty_wildcard_no_self_query_witness :
    (fetchCycle (fun _ => "") (fun _ => none) "abc.mountains.gov"
        "http://abc.mountains.gov").1.matched_wild = false ∧
    (fetchCycle (fun _ => "") (fun _ => none) "abc.mountains.gov"
        "http://abc.mountains.gov").2.1 = ["*.mountains.gov"] ∧
    "abc.mountains.gov" ∉ (fetchCycle (fun _ => "") (fun _ => none)
        "abc.mountains.gov" "http://abc.mountains.gov").2.1 := by
  have h := C5_empty_wildcard_no_self_query (fun _ => "") (fun _ => none)
    "abc.mountains.gov" "http://abc.mountains.gov" rfl
  exact ⟨h.1, by rw [h.2.1]; rfl, h.2.2 (by decide)⟩

theorem sortStrings_perm (l : List String) : (sortStrings l).Perm l :=
  List.perm_insertionSort _ l

theorem sortStrings_congr {l l' : List String} (h : l.Perm l') :
    sortStrings l = sortStrings l' :=
  List.eq_of_perm_of_sorted
    ((sortStrings_perm l).trans (h.trans (sortStrings_perm l').symm))
    (List.sorted_insertionSort _ l) (List.sorted_insertionSort _ l')

theorem sortStrings_ne_nil {l : List String} (h : l ≠ []) :
    sortStrings l ≠ [] := by
  intro hs
  have hp : l.Perm [] := by rw [← hs]; exact (sortStrings_perm l).symm
  exact h hp.eq_nil

/-- C6: the wildcard-match bit computed by the fetch cycle from two non-empty
DNS answer lists is invariant under permutations of either list, and is true
exactly when the two answer multisets are equal; and when both raw `dig`
outputs are non-empty, the fetch cycle's `matched_wild` is exactly this
function of the two split answer lists. -/
theorem C6_wildcard_order_independent :
    (∀ w s w' s' : List String, w.Perm w' → s.Perm s' →
        matchedFromAnswers w' s' = matchedFromAnswers w s) ∧
    (∀ w s : List String, w ≠ [] → s ≠ [] →
        (matchedFromAnswers w s = true ↔
          (w : Multiset String) = (s : Multiset String))) ∧
    (∀ (dig : String → String) (curl : String → Option String) (sub ep : String),
        ¬ dig (wildcard_for sub) = "" → ¬ dig sub = "" →
        (fetchCycle dig curl sub ep).1.matched_wild
          = matchedFromAnswers (pySplit '\n' (dig (wildcard_for sub)))
              (pySplit '\n' (dig sub))) := by
  refine ⟨?_, ?_, ?_⟩
  · intro w s w' s' hw hs
    unfold matchedFromAnswers
    rw [sortStrings_congr hw, sortStrings_congr hs]
  · intro w s hw hs
    unfold matchedFromAnswers matchedOf
    constructor
    · intro h
      obtain ⟨-, h2⟩ := Bool.and_eq_true_iff.mp h
      have h3 : sortStrings w = sortStrings s :=
        Option.some_injective _ (of_decide_eq_true h2)
      exact Multiset.coe_eq_coe.mpr
        ((sortStrings_perm w).symm.trans (h3 ▸ sortStrings_perm s))
    · intro h
      have hperm : w.Perm s := Multiset.coe_eq_coe.mp h
      have h3 : sortStrings w = sortStrings s := sortStrings_congr hperm
      have h4 : truthyList (some (sortStrings w)) = true := by
        cases hsw : sortStrings w with
        | nil => exact absurd hsw (sortStrings_ne_nil hw)
        | cons a t => simp [truthyList]
      rw [h4, h3]
      simp
  · intro dig curl sub ep h1 h2
    simp [fetchCycle, h1, h2, parseSort, matchedFromAnswers]

/-- C6 witness: the answer sets `[2.2.2.2, 1.1.1.1]` and `[1.1.1.1, 2.2.2.2]`
are treated as equal, concretely instantiating all three parts of the
order-independence theorem. -/
theorem C6_wildcard_order_independent_witness :
    matchedFromAnswers ["1.1.1.1", "2.2.2.2"] ["1.1.1.1", "2.2.2.2"]
        = matchedFromAnswers ["2.2.2.2", "1.1.1.1"] ["1.1.1.1", "2.2.2.2"] ∧
    matchedFromAnswers ["2.2.2.2", "1.1.1.1"] ["1.1.1.1", "2.2.2.2"] = true ∧
    (fetchCycle (fun _ => "1.1.1.1\n2.2.2.2") (fun _ => none) "a.b.gov"
        "http://a.b.gov").1.matched_wild
      = matchedFromAnswers ["1.1.1.1", "2.2.2.2"] ["1.1.1.1", "2.2.2.2"] := by
  refine ⟨C6_wildcard_order_independent.1 ["2.2.2.2", "1.1.1.1"] _ _ _
      (by decide) (by decide),
    (C6_wildcard_order_independent.2.1 _ _ (by decide) (by decide)).mpr
      (by decide),
    ?_⟩
  have h := C6_wildcard_order_independent.2.2 (fun _ => "1.1.1.1\n2.2.2.2")
    (fun _ => none) "a.b.gov" "http://a.b.gov" (by decide) (by decide)
  rw [h]
  rfl

/-- C7 counterexample: the claim says a wildcard-matched candidate whose
resolved status code is not in the 2xx range yields no output row.  In
`envStatus20` the resolved status is 20 — not in the 2xx range — and the
cached probe records a wildcard match, yet `scan` emits a row, because the
code tests `str(status).startswith('2')` and `"20"` starts with `'2'`. -/
theorem C7_status20_counterexample :
    scan envStatus20 "a.agency.gov"
      = .ok (some ⟨none, false, false, some 20, true, none⟩) ∧
    ¬ (200 ≤ (20 : Int) ∧ (20 : Int) ≤ 299) := by
  exact ⟨by decide, by decide⟩

/-- C7 (amended): for every candidate that reaches the wildcard filter with a
resolved status code `n`, if the probe reports a wildcard match and the
decimal representation of `n` does not start with the character `2`, `scan`
yields no output row. -/
theorem C7_wildcard_noise_skip (env : ScanEnv) (domain : String)
    (insp : Inspection) (ep : Endpoint) (proto pfx : Option String) (n : Int)
    (hex : domain ∉ env.exclude)
    (hsub : ¬ reSubWww domain = base_domain_for domain)
    (hlook : env.inspections domain = some insp)
    (hup : insp.up = some true)
    (hres : resolveEndpoint insp = .ok (ep, proto, pfx))
    (hst : ep.status = some n) (hn : ¬ n = 0)
    (hhost : truthyStr ep.redirect_to = true →
        (env.hostnameOf (ep.redirect_to.getD "")).isSome = true)
    (hmatch : (networkCheck env domain (optStr proto ++ "://"
        ++ (if pfx = some "root" then "" else "www.")
        ++ domain)).response.matched_wild = true)
    (h2 : statusStartsWith2 (some n) = false) :
    scan env domain = .ok none := by
  rw [scan_eq_after hex hsub hlook hup hres]
  have hs0 : ¬ ep.status = some 0 := by rw [hst]; simp [hn]
  obtain ⟨flags, hflags⟩ :
      ∃ flags, redirectFlags env domain (base_domain_for domain) ep
        = .ok flags := by
    by_cases ht : truthyStr ep.redirect_to = true
    · obtain ⟨h, hh⟩ := Option.isSome_iff_exists.mp (hhost ht)
      exact ⟨classifyRedirect domain (base_domain_for domain) h,
        by simp [redirectFlags, ht, hh]⟩
    · exact ⟨(false, false), by simp [redirectFlags, ht]⟩
  simp [scanAfterResolve, hs0, hflags, hst, hmatch, h2]

/-- C7 amended witness: a concrete wildcard-matched candidate with resolved
status 404 is suppressed. -/
theorem C7_wildcard_noise_skip_witness :
    scan envWild404 "a.agency.gov" = .ok none :=
  C7_wildcard_noise_skip envWild404 "a.agency.gov"
    { up := some true, canonical_protocol := some "http",
      canonical_endpoint := some "root",
      endpoints := some
        [("http", [("root", ⟨some 404, none⟩), ("www", ⟨some 0, none⟩)]),
         ("https", [("root", ⟨some 0, none⟩), ("www", ⟨some 0, none⟩)])] }
    ⟨some 404, none⟩ (some "http") (some "root") 404
    (by decide) (by decide) rfl rfl (by decide) rfl (by decide) (by decide)
    (by decide) (by decide)

/-- C8: the claim says every candidate equal to its base domain after
stripping a leading `www.` label yields no output row; the code comment
likewise says second-level roots are removed.  The code's unescaped regex
`^www.` breaks this for second-level domains starting with `www` but not
`www.`: stripping a literal `www.` leaves `wwwfoo.gov` equal to its base
domain, yet the regex turns it into `oo.gov`, the skip does not fire, and
`scan` emits an output row. -/
theorem C8_www_regex_dot_eval :
    specStripWww "wwwfoo.gov" = "wwwfoo.gov" ∧
    base_domain_for "wwwfoo.gov" = "wwwfoo.gov" ∧
    reSubWww "wwwfoo.gov" = "oo.gov" ∧
    scan envWwwfoo "wwwfoo.gov"
      = .ok (some ⟨none, false, false, some 200, false, none⟩) := by
  refine ⟨by decide, by decide, by decide, by decide⟩

/-- C9: an inspection record whose four endpoint entries (covering the
declared canonical endpoint and every fallback combination) all carry status
code 0 makes classification yield no output row, terminating as a normal skip
and not as a raised error. -/
theorem C9_all_down_skip (env : ScanEnv) (domain : String) (insp : Inspection)
    (eps : List (String × List (String × Endpoint)))
    (dH dS : List (String × Endpoint)) (e_hr e_hw e_sr e_sw : Endpoint)
    (p : String)
    (hlook : env.inspections domain = some insp)
    (heps : insp.endpoints = some eps)
    (hH : eps.lookup "http" = some dH) (hS : eps.lookup "https" = some dS)
    (hhr : dH.lookup "root" = some e_hr) (hhw : dH.lookup "www" = some e_hw)
    (hsr : dS.lookup "root" = some e_sr) (hsw : dS.lookup "www" = some e_sw)
    (hp : insp.canonical_protocol = some p) (hpe : p = "http" ∨ p = "https")
    (z_hr : e_hr.status = some 0) (z_hw : e_hw.status = some 0)
    (z_sr : e_sr.status = some 0) (z_sw : e_sw.status = some 0) :
    scan env domain = .ok none := by
  have ghw := getEp_eq heps hH hhw
  have gsr := getEp_eq heps hS hsr
  have gsw := getEp_eq heps hS hsw
  have ghr := getEp_eq heps hH hhr
  have hres : resolveEndpoint insp = .ok (e_hr, some "http", some "root") := by
    have chain : ∀ e0 : Endpoint, e0.status = some 0 → getEp0 insp = .ok e0 →
        resolveEndpoint insp = .ok (e_hr, some "http", some "root") := by
      intro e0 hz h0
      have s1 : resolveStep insp "http" "www"
          (e0, insp.canonical_protocol, insp.canonical_endpoint)
          = .ok (e_hw, some "http", some "www") := resolveStep_move hz ghw
      have s2 : resolveStep insp "https" "root" (e_hw, some "http", some "www")
          = .ok (e_sr, some "https", some "root") := resolveStep_move z_hw gsr
      have s3 : resolveStep insp "https" "www" (e_sr, some "https", some "root")
          = .ok (e_sw, some "https", some "www") := resolveStep_move z_sr gsw
      have s4 : resolveStep insp "http" "root" (e_sw, some "https", some "www")
          = .ok (e_hr, some "http", some "root") := resolveStep_move z_sw ghr
      simp only [resolveEndpoint, h0, s1, s2, s3, s4]
    rcases hpe with rfl | rfl
    · exact chain e_hr z_hr (getEp0_eq hp heps hH hhr)
    · exact chain e_sr z_sr (getEp0_eq hp heps hS hsr)
  by_cases hex : domain ∈ env.exclude
  · simp [scan, hex]
  · by_cases hsub : reSubWww domain = base_domain_for domain
    · simp [scan, hex, hsub]
    · by_cases hup : insp.up = some true
      · rw [scan_eq_after hex hsub hlook hup hres]
        simp [scanAfterResolve, z_hr]
      · have hne : insp.isEmpty = false := by
          simp [Inspection.isEmpty, heps]
        simp [scan, hex, hsub, hlook, hne, hup]

/-- C9 witness: the concrete all-zero record for `x.agency.gov` is skipped. -/
theorem C9_all_down_skip_witness : scan envAllZero "x.agency.gov" = .ok none :=
  C9_all_down_skip envAllZero "x.agency.gov" inspAllZero _ _ _
    ⟨some 0, none⟩ ⟨some 0, none⟩ ⟨some 0, none⟩ ⟨some 0, none⟩ "http"
    (by decide) rfl rfl rfl rfl rfl rfl rfl rfl (Or.inl rfl)
    rfl rfl rfl rfl

/-- C10 counterexample: the claim's precondition — all four endpoint entries
present and the `canonical_protocol` key present — does not rule out the
exception branch: in `inspFtp` all four entries exist and
`canonical_protocol` is present with value `"ftp"`, yet resolution (and hence
`scan`) raises `KeyError` on `endpoints["ftp"]`. -/
theorem C10_ftp_counterexample :
    inspFtp.up = some true ∧
    inspFtp.canonical_protocol = some "ftp" ∧
    getEp inspFtp "http" "root" = .ok ⟨some 200, none⟩ ∧
    getEp inspFtp "http" "www" = .ok ⟨some 200, none⟩ ∧
    getEp inspFtp "https" "root" = .ok ⟨some 200, none⟩ ∧
    getEp inspFtp "https" "www" = .ok ⟨some 200, none⟩ ∧
    resolveEndpoint inspFtp = .error .keyError ∧
    scan envFtp "x.agency.gov" = .error .keyError := by
  refine ⟨rfl, rfl, by decide, by decide, by decide, by decide, by decide,
    by decide⟩

/-- C10 (amended): for a candidate that passes the early filters with an `up`
record, `scan` indexes the endpoints dictionary without guards: it raises
`KeyError` when the record lacks the `endpoints` mapping or the
`canonical_protocol` key, and propagates any resolution error as an uncaught
exception instead of a skip; conversely, when all four protocol-by-prefix
entries are present and `canonical_protocol` is present with value `http` or
`https`, endpoint resolution raises no exception. -/
theorem C10_unguarded_indexing (env : ScanEnv) (domain : String)
    (insp : Inspection)
    (hex : domain ∉ env.exclude)
    (hsub : ¬ reSubWww domain = base_domain_for domain)
    (hlook : env.inspections domain = some insp)
    (hup : insp.up = some true) :
    (insp.endpoints = none → scan env domain = .error .keyError) ∧
    (insp.canonical_protocol = none → scan env domain = .error .keyError) ∧
    (∀ e, resolveEndpoint insp = .error e → scan env domain = .error e) ∧
    (∀ (eps : List (String × List (String × Endpoint)))
        (dH dS : List (String × Endpoint)) (e_hr e_hw e_sr e_sw : Endpoint)
        (p : String),
        insp.endpoints = some eps →
        eps.lookup "http" = some dH → eps.lookup "https" = some dS →
        dH.lookup "root" = some e_hr → dH.lookup "www" = some e_hw →
        dS.lookup "root" = some e_sr → dS.lookup "www" = some e_sw →
        insp.canonical_protocol = some p → p = "http" ∨ p = "https" →
        ∃ r, resolveEndpoint insp = .ok r) := by
  have hprop : ∀ e, resolveEndpoint insp = .error e →
      scan env domain = .error e :=
    fun e he => scan_eq_error hex hsub hlook hup he
  refine ⟨?_, ?_, hprop, ?_⟩
  · intro hnone
    apply hprop
    simp [resolveEndpoint, getEp0, hnone]
  · intro hcp
    apply hprop
    cases heps : insp.endpoints with
    | none => simp [resolveEndpoint, getEp0, heps]
    | some eps => simp [resolveEndpoint, getEp0, dictGet, heps, hcp]
  · intro eps dH dS e_hr e_hw e_sr e_sw p heps hH hS hhr hhw hsr hsw hp hpe
    have ghw := getEp_eq heps hH hhw
    have gsr := getEp_eq heps hS hsr
    have gsw := getEp_eq heps hS hsw
    have ghr := getEp_eq heps hH hhr
    have hex0 : ∃ e0, getEp0 insp = .ok e0 := by
      rcases hpe with rfl | rfl
      · exact ⟨e_hr, getEp0_eq hp heps hH hhr⟩
      · exact ⟨e_sr, getEp0_eq hp heps hS hsr⟩
    obtain ⟨e0, h0⟩ := hex0
    obtain ⟨s1, hs1⟩ := resolveStep_isOk ghw
      (e0, insp.canonical_protocol, insp.canonical_endpoint)
    obtain ⟨s2, hs2⟩ := resolveStep_isOk gsr s1
    obtain ⟨s3, hs3⟩ := resolveStep_isOk gsw s2
    obtain ⟨s4, hs4⟩ := resolveStep_isOk ghr s3
    exact ⟨s4, by simp only [resolveEndpoint, h0, hs1, hs2, hs3, hs4]⟩

/-- C10 amended witness: a record with `up` true and no `endpoints` mapping
makes `scan` raise `KeyError`, and the well-formed all-zero record resolves
without an exception. -/
theorem C10_unguarded_indexing_witness :
    scan envNoEndpoints "x.agency.gov" = .error .keyError ∧
    (∃ r, resolveEndpoint inspAllZero = .ok r) := by
  refine ⟨(C10_unguarded_indexing envNoEndpoints "x.agency.gov"
      inspNoEndpoints (by decide) (by decide) rfl rfl).1 rfl, ?_⟩
  exact (C10_unguarded_indexing envAllZero "x.agency.gov" inspAllZero
      (by decide) (by decide) rfl rfl).2.2.2 _ _ _
      ⟨some 0, none⟩ ⟨some 0, none⟩ ⟨some 0, none⟩ ⟨some 0, none⟩ "http"
      rfl rfl rfl rfl rfl rfl rfl rfl (Or.inl rfl)
